import Mathlib

/-!
Shallow embedding of the HexaGate connection admission-control core:
the security policy engine (`PolicyManager`), the PKI trust store
(`PKIManager`) and the unified router (`UnifiedRouter`), translated from
`src/security/index.ts`, `src/types/index.ts` and the unified routing
module.  JavaScript `Date` values are modelled as millisecond timestamps
(`Int`), string truthiness is modelled explicitly, and IEEE `parseFloat`
values of the form `major.minor` (produced by `compareTlsVersions`) are
represented exactly as scaled naturals, which preserves the sign of every
comparison the code performs.
-/

namespace HexaGate

/-- `NetworkType` union from `types/index.ts`. -/
inductive NetworkType
  | clearnet
  | tor
  | i2p
  | gnunet
  | dvpn
  | custom
deriving DecidableEq, Repr

/-- `SecurityLevel` union from `types/index.ts`. -/
inductive SecurityLevel
  | standard
  | elevated
  | maximum
deriving DecidableEq, Repr

/-- `ConnectionState` union from `types/index.ts`. -/
inductive ConnectionState
  | disconnected
  | connecting
  | connected
  | error
deriving DecidableEq, Repr

/-- Enforcement level of a `SecurityPolicy` (`'warn' | 'block' | 'strict'`). -/
inductive EnforcementLevel
  | warn
  | block
  | strict
deriving DecidableEq, Repr

/-- `SecurityRule.action` union (`'allow' | 'deny' | 'prompt'`). -/
inductive RuleAction
  | allow
  | deny
  | prompt
deriving DecidableEq, Repr

/-- `SecurityRule.type` union (`'anti-downgrade' | 'certificate' | 'network' | 'custom'`). -/
inductive RuleType
  | antiDowngrade
  | certificate
  | network
  | custom
deriving DecidableEq, Repr

/-- `SecurityRule` from `types/index.ts`.  The open `metadata` record is
modelled by the two keys the policy engine actually reads
(`metadata?.minVersion` and `metadata?.weakCiphers`). -/
structure SecurityRule where
  type : RuleType
  condition : String
  action : RuleAction
  metadataMinVersion : Option String := none
  metadataWeakCiphers : Option (List String) := none
deriving DecidableEq, Repr

/-- `SecurityPolicy` from `types/index.ts`. -/
structure SecurityPolicy where
  id : String
  name : String
  rules : List SecurityRule
  enforcementLevel : EnforcementLevel
deriving DecidableEq, Repr

/-- `Certificate` from `types/index.ts`; `validFrom`/`validTo` are
millisecond timestamps. -/
structure Certificate where
  id : String
  subject : String
  issuer : String
  publicKey : String
  serialNumber : String
  validFrom : Int
  validTo : Int
  isPrivate : Bool
  trusted : Bool
deriving DecidableEq, Repr

/-- `ConnectionContext` from `security/index.ts`.  The optional
`certificateExpired` flag is modelled as a `Bool` because the code only
tests its truthiness (absent behaves as `false`). -/
structure ConnectionContext where
  url : String
  tlsVersion : Option String := none
  cipherSuite : Option String := none
  certificate : Option Certificate := none
  certificateExpired : Bool := false
deriving DecidableEq, Repr

/-- `PolicyViolation` from `security/index.ts`. -/
structure PolicyViolation where
  policyId : String
  policyName : String
  rule : SecurityRule
  message : String
deriving DecidableEq, Repr

/-- `PolicyEvaluationResult` from `security/index.ts`. -/
structure PolicyEvaluationResult where
  allowed : Bool
  violations : List PolicyViolation
  warnings : List PolicyViolation
deriving DecidableEq, Repr

/-! ### JavaScript string semantics -/

/-- Truthiness of an optional string: `undefined` and `""` are falsy. -/
def jsTruthyS : Option String → Bool
  | none => false
  | some s => !(s == "")

/-- `charsLead p s` holds when `p` is an initial segment of `s`. -/
def charsLead : List Char → List Char → Bool
  | [], _ => true
  | _ :: _, [] => false
  | p :: ps, c :: cs => p == c && charsLead ps cs

/-- `charsContain pat s`: some contiguous segment of `s` equals `pat`. -/
def charsContain (pat : List Char) : List Char → Bool
  | [] => pat.isEmpty
  | c :: cs => charsLead pat (c :: cs) || charsContain pat cs

/-- `s.includes(pat)` from JavaScript. -/
def jsIncludes (s pat : String) : Bool :=
  charsContain pat.data s.data

/-! ### TLS version parsing (`PolicyManager.compareTlsVersions`) -/

/-- Value of a digit run read left to right. -/
def digitsToNat (ds : List Char) : Nat :=
  ds.foldl (fun n c => 10 * n + (c.toNat - 48)) 0

/-- The match of the regular expression `(\d+)\.?(\d+)?` against `v`,
followed by `parseFloat` of the rebuilt string
`match[1] ++ "." ++ (match[2] ?? "0")`, represented exactly as a pair
`(numerator, decimals)` denoting `numerator / 10 ^ decimals`.
A string with no digit parses to `0`. -/
def parseVersionParts (v : String) : Nat × Nat :=
  let cs := v.data.dropWhile (fun c => !c.isDigit)
  let majorDs := cs.takeWhile Char.isDigit
  if majorDs.isEmpty then
    (0, 0)
  else
    let rest := cs.dropWhile Char.isDigit
    let minorDs :=
      match rest with
      | c :: r => if c == '.' then r.takeWhile Char.isDigit else []
      | [] => []
    if minorDs.isEmpty then
      (digitsToNat majorDs, 0)
    else
      (digitsToNat majorDs * 10 ^ minorDs.length + digitsToNat minorDs, minorDs.length)

/-- `compareTlsVersions version minVersion < 0`: the code subtracts the two
parsed numeric values and the caller tests the sign, which is the sign of
the exact rational difference. -/
def compareTlsVersionsLt (version minVersion : String) : Bool :=
  let a := parseVersionParts version
  let b := parseVersionParts minVersion
  a.1 * 10 ^ b.2 < b.1 * 10 ^ a.2

/-! ### Policy rule evaluation (`PolicyManager`) -/

/-- `PolicyManager.evaluateAntiDowngrade`.  The three `if` blocks of the
source test mutually exclusive `rule.condition` strings, each returning its
message on trigger and falling through to `null` otherwise. -/
def evaluateAntiDowngrade (rule : SecurityRule) (ctx : ConnectionContext) : Option String :=
  if rule.condition == "tls_version < 1.2" &&
      jsTruthyS ctx.tlsVersion &&
      compareTlsVersionsLt (ctx.tlsVersion.getD "") (rule.metadataMinVersion.getD "1.2") then
    some ("TLS version " ++ ctx.tlsVersion.getD "" ++ " is below minimum " ++
      rule.metadataMinVersion.getD "1.2")
  else if rule.condition == "cipher_suite in weak_ciphers" &&
      jsTruthyS ctx.cipherSuite &&
      (rule.metadataWeakCiphers.getD []).any (fun weak => jsIncludes (ctx.cipherSuite.getD "") weak) then
    some ("Weak cipher suite detected: " ++ ctx.cipherSuite.getD "")
  else if rule.condition == "certificate_expired" && ctx.certificateExpired then
    some "Certificate has expired"
  else
    none

/-- `PolicyManager.evaluateCertificate`. -/
def evaluateCertificate (rule : SecurityRule) (ctx : ConnectionContext) : Option String :=
  match ctx.certificate with
  | none => none
  | some cert =>
    if rule.condition == "untrusted" && !cert.trusted then
      some "Certificate is not trusted"
    else
      none

/-- `PolicyManager.evaluateRule`: dispatch on `rule.type`; unrecognized
kinds are inert. -/
def evaluateRule (rule : SecurityRule) (ctx : ConnectionContext) : Option String :=
  match rule.type with
  | RuleType.antiDowngrade => evaluateAntiDowngrade rule ctx
  | RuleType.certificate => evaluateCertificate rule ctx
  | _ => none

/-- The test `rule.action === 'deny' && policy.enforcementLevel !== 'warn'`
deciding whether a triggered rule becomes a violation. -/
def isBlocking (policy : SecurityPolicy) (rule : SecurityRule) : Bool :=
  rule.action == RuleAction.deny && !(policy.enforcementLevel == EnforcementLevel.warn)

/-- One iteration of the inner loop of `PolicyManager.evaluateConnection`:
a triggered rule with `action === 'deny'` under a non-`warn` policy is
pushed as a violation and clears `allowed`; any other triggered rule is
pushed as a warning. -/
def evalStep (policy : SecurityPolicy) (ctx : ConnectionContext)
    (acc : PolicyEvaluationResult) (rule : SecurityRule) : PolicyEvaluationResult :=
  match evaluateRule rule ctx with
  | none => acc
  | some msg =>
    if isBlocking policy rule then
      { acc with
        allowed := false
        violations := acc.violations ++ [⟨policy.id, policy.name, rule, msg⟩] }
    else
      { acc with
        warnings := acc.warnings ++ [⟨policy.id, policy.name, rule, msg⟩] }

/-- The loop of `PolicyManager.evaluateConnection` over a list of active
policies. -/
def evaluateConnectionPolicies (policies : List SecurityPolicy)
    (ctx : ConnectionContext) : PolicyEvaluationResult :=
  policies.foldl (fun acc policy => policy.rules.foldl (evalStep policy ctx) acc)
    { allowed := true, violations := [], warnings := [] }

/-- `PolicyManager` state: `policies` is the insertion-ordered id-keyed map,
`activePolicies` the insertion-ordered set of active ids. -/
structure PolicyManagerState where
  policies : List (String × SecurityPolicy)
  activePolicies : List String
deriving DecidableEq, Repr

/-- `Map.get` on the policy map. -/
def policiesGet (m : List (String × SecurityPolicy)) (k : String) : Option SecurityPolicy :=
  (m.find? (fun e => e.1 == k)).map (fun e => e.2)

/-- `PolicyManager.getActivePolicies`. -/
def getActivePolicies (s : PolicyManagerState) : List SecurityPolicy :=
  s.activePolicies.filterMap (fun id => policiesGet s.policies id)

/-- `PolicyManager.evaluateConnection`. -/
def evaluateConnection (s : PolicyManagerState) (ctx : ConnectionContext) : PolicyEvaluationResult :=
  evaluateConnectionPolicies (getActivePolicies s) ctx

/-- First rule of the default policy: the TLS-floor rule. -/
def tlsFloorRule : SecurityRule :=
  { type := RuleType.antiDowngrade
    condition := "tls_version < 1.2"
    action := RuleAction.deny
    metadataMinVersion := some "1.2" }

/-- Second rule of the default policy: the weak-cipher rule. -/
def weakCipherRule : SecurityRule :=
  { type := RuleType.antiDowngrade
    condition := "cipher_suite in weak_ciphers"
    action := RuleAction.deny
    metadataWeakCiphers := some ["RC4", "DES", "3DES", "MD5"] }

/-- Third rule of the default policy: the certificate-expired rule. -/
def certExpiredRule : SecurityRule :=
  { type := RuleType.antiDowngrade
    condition := "certificate_expired"
    action := RuleAction.deny }

/-- The pre-loaded "Anti-Downgrade Protection" policy built by
`PolicyManager.initializeDefaultPolicies`. -/
def antiDowngradePolicy : SecurityPolicy :=
  { id := "default-anti-downgrade"
    name := "Anti-Downgrade Protection"
    rules := [tlsFloorRule, weakCipherRule, certExpiredRule]
    enforcementLevel := EnforcementLevel.strict }

/-- State of a freshly constructed `PolicyManager` (constructor runs
`initializeDefaultPolicies`). -/
def freshPolicyManager : PolicyManagerState :=
  { policies := [("default-anti-downgrade", antiDowngradePolicy)]
    activePolicies := ["default-anti-downgrade"] }

/-! ### PKI trust store (`PKIManager`) -/

/-- `CertificateVerificationResult` from `security/index.ts`. -/
structure CertificateVerificationResult where
  valid : Bool
  trusted : Bool
  errors : List String
  warnings : List String
deriving DecidableEq, Repr

/-- `PKIManager.verifyCertificate`, with the trusted-issuer set and the
current time (`new Date()`, in milliseconds) passed explicitly. -/
def verifyCertificate (trustedIssuers : List String) (now : Int)
    (cert : Certificate) : CertificateVerificationResult :=
  let r0 : CertificateVerificationResult :=
    { valid := true, trusted := false, errors := [], warnings := [] }
  let r1 :=
    if cert.validFrom > now then
      { r0 with valid := false, errors := r0.errors ++ ["Certificate is not yet valid"] }
    else r0
  let r2 :=
    if cert.validTo < now then
      { r1 with valid := false, errors := r1.errors ++ ["Certificate has expired"] }
    else r1
  if trustedIssuers.contains cert.issuer || cert.isPrivate then
    { r2 with trusted := true }
  else
    { r2 with warnings := r2.warnings ++ ["Certificate issuer is not in trusted list"] }

/-! ### Unified router -/

/-- Transport-specific behaviour of each concrete `NetworkHandler`
subclass; the string parameters are the proxy/endpoint/scheme data fixed at
construction. -/
inductive HandlerKind
  | clearnetH
  | torH (socksProxy : String)
  | i2pH (i2pProxy : String)
  | gnunetH
  | dvpnH (endpoint : String)
  | customH (routeHead : String)
deriving DecidableEq, Repr

/-- A registered `NetworkHandler`: its kind, its `config.type`, its
`config.enabled` flag and its connection state. -/
structure RouterHandler where
  kind : HandlerKind
  type : NetworkType
  enabled : Bool
  state : ConnectionState
deriving DecidableEq, Repr

/-- The `route(address)` method of each concrete handler (pure given its
fixed configuration). -/
def handlerRoute (kind : HandlerKind) (address : String) : String :=
  match kind with
  | HandlerKind.clearnetH => address
  | HandlerKind.torH p => p ++ "/" ++ address
  | HandlerKind.i2pH p => p ++ "/" ++ address
  | HandlerKind.gnunetH => "gnunet://" ++ address
  | HandlerKind.dvpnH e => e ++ "/" ++ address
  | HandlerKind.customH h => h ++ address

/-- `connect()`: every concrete handler moves through `connecting` to
`connected` and resolves `true`. -/
def handlerConnect (h : RouterHandler) : RouterHandler × Bool :=
  ({ h with state := ConnectionState.connected }, true)

/-- `disconnect()`: every concrete handler sets state `disconnected`. -/
def handlerDisconnect (h : RouterHandler) : RouterHandler :=
  { h with state := ConnectionState.disconnected }

/-- `RoutingRequest` from `types/index.ts`. -/
structure RoutingRequest where
  handle : Option String := none
  url : Option String := none
  preferredNetwork : Option NetworkType := none
  securityLevel : Option SecurityLevel := none
  spaceId : Option String := none
deriving DecidableEq, Repr

/-- `RoutingResponse` from `types/index.ts`; the optional `metadata` record
is modelled by the two keys `route` writes into it. -/
structure RoutingResponse where
  success : Bool
  networkUsed : NetworkType
  resolvedAddress : String
  connectionId : String
  error : Option String := none
  metaSecurityLevel : Option SecurityLevel := none
  metaSpaceId : Option (Option String) := none
deriving DecidableEq, Repr

/-- `UnifiedRouter` state: the type-keyed handler map in insertion order
and the configured default network. -/
structure UnifiedRouter where
  handlers : List RouterHandler
  defaultNetwork : NetworkType := NetworkType.clearnet
deriving DecidableEq, Repr

/-- The string each `NetworkType` union member interpolates to. -/
def networkName : NetworkType → String
  | NetworkType.clearnet => "clearnet"
  | NetworkType.tor => "tor"
  | NetworkType.i2p => "i2p"
  | NetworkType.gnunet => "gnunet"
  | NetworkType.dvpn => "dvpn"
  | NetworkType.custom => "custom"

/-- `this.handlers.get(type)`. -/
def getHandler (r : UnifiedRouter) (t : NetworkType) : Option RouterHandler :=
  r.handlers.find? (fun h => h.type == t)

/-- `this.handlers.has(type)`. -/
def hasHandler (r : UnifiedRouter) (t : NetworkType) : Bool :=
  (getHandler r t).isSome

/-- `UnifiedRouter.route`.  The fresh correlation id (produced by
`generateConnectionId`) is passed explicitly; the returned pair carries the
response and the router with the possibly auto-connected handler. -/
def route (r : UnifiedRouter) (freshId : String) (req : RoutingRequest) :
    RoutingResponse × UnifiedRouter :=
  let networkType := req.preferredNetwork.getD r.defaultNetwork
  match getHandler r networkType with
  | none =>
    ({ success := false
       networkUsed := networkType
       resolvedAddress := ""
       connectionId := ""
       error := some ("No handler registered for network type: " ++ networkName networkType) }, r)
  | some h =>
    if !h.enabled then
      ({ success := false
         networkUsed := networkType
         resolvedAddress := ""
         connectionId := ""
         error := some ("Network " ++ networkName networkType ++ " is disabled") }, r)
    else
      let h2 := if !(h.state == ConnectionState.connected) then (handlerConnect h).1 else h
      let address := (req.handle.orElse (fun _ => req.url)).getD ""
      let resolvedAddress := handlerRoute h2.kind address
      ({ success := true
         networkUsed := networkType
         resolvedAddress := resolvedAddress
         connectionId := freshId
         metaSecurityLevel := some (req.securityLevel.getD SecurityLevel.standard)
         metaSpaceId := some req.spaceId },
       { r with handlers := r.handlers.map (fun x => if x.type == networkType then h2 else x) })

/-- One iteration of `UnifiedRouter.connectAll`: an enabled handler is
connected and its `connect()` result recorded; a disabled handler is left
alone and recorded as `false`. -/
def connectAllStep (acc : List RouterHandler × List (NetworkType × Bool))
    (h : RouterHandler) : List RouterHandler × List (NetworkType × Bool) :=
  if h.enabled then
    let c := handlerConnect h
    (acc.1 ++ [c.1], acc.2 ++ [(h.type, c.2)])
  else
    (acc.1 ++ [h], acc.2 ++ [(h.type, false)])

/-- `UnifiedRouter.connectAll`. -/
def connectAll (r : UnifiedRouter) : UnifiedRouter × List (NetworkType × Bool) :=
  let out := r.handlers.foldl connectAllStep ([], [])
  ({ r with handlers := out.1 }, out.2)

/-- `UnifiedRouter.disconnectAll`: iterates every registered handler and
calls `disconnect()` on it. -/
def disconnectAll (r : UnifiedRouter) : UnifiedRouter :=
  { r with handlers := r.handlers.map handlerDisconnect }

/-- `UnifiedRouter.selectNetworkForSecurity`. -/
def selectNetworkForSecurity (r : UnifiedRouter) (level : SecurityLevel) : NetworkType :=
  match level with
  | SecurityLevel.maximum =>
    if hasHandler r NetworkType.tor then NetworkType.tor
    else if hasHandler r NetworkType.i2p then NetworkType.i2p
    else r.defaultNetwork
  | SecurityLevel.elevated =>
    if hasHandler r NetworkType.dvpn then NetworkType.dvpn
    else if hasHandler r NetworkType.gnunet then NetworkType.gnunet
    else if hasHandler r NetworkType.tor then NetworkType.tor
    else r.defaultNetwork
  | SecurityLevel.standard => r.defaultNetwork

/-- Default-constructed handlers from the routing module. -/
def clearnetHandler : RouterHandler :=
  { kind := HandlerKind.clearnetH, type := NetworkType.clearnet, enabled := true
    state := ConnectionState.disconnected }

def torHandler : RouterHandler :=
  { kind := HandlerKind.torH "socks5://127.0.0.1:9050", type := NetworkType.tor
    enabled := true, state := ConnectionState.disconnected }

def i2pHandler : RouterHandler :=
  { kind := HandlerKind.i2pH "http://127.0.0.1:4444", type := NetworkType.i2p
    enabled := true, state := ConnectionState.disconnected }

def gnunetHandler : RouterHandler :=
  { kind := HandlerKind.gnunetH, type := NetworkType.gnunet, enabled := true
    state := ConnectionState.disconnected }

def dvpnHandler : RouterHandler :=
  { kind := HandlerKind.dvpnH "dvpn://node", type := NetworkType.dvpn, enabled := true
    state := ConnectionState.disconnected }

/-- A router with handlers for clearnet, tor, i2p, dvpn and gnunet all
registered and clearnet as the configured default (the constructor
registers the clearnet handler; the others are added by
`registerHandler`). -/
def fullRouter : UnifiedRouter :=
  { handlers := [clearnetHandler, torHandler, i2pHandler, dvpnHandler, gnunetHandler]
    defaultNetwork := NetworkType.clearnet }

/-! ### Derived characterizations of the evaluation loop -/

/-- The violation entry a rule contributes under `policy`, when any. -/
def blockEntry (policy : SecurityPolicy) (ctx : ConnectionContext)
    (rule : SecurityRule) : Option PolicyViolation :=
  match evaluateRule rule ctx with
  | none => none
  | some msg =>
    if isBlocking policy rule then some ⟨policy.id, policy.name, rule, msg⟩ else none

/-- The warning entry a rule contributes under `policy`, when any. -/
def warnEntry (policy : SecurityPolicy) (ctx : ConnectionContext)
    (rule : SecurityRule) : Option PolicyViolation :=
  match evaluateRule rule ctx with
  | none => none
  | some msg =>
    if isBlocking policy rule then none else some ⟨policy.id, policy.name, rule, msg⟩

/-- All violation entries contributed by a list of active policies, in
evaluation order. -/
def violationsOf (policies : List SecurityPolicy) (ctx : ConnectionContext) :
    List PolicyViolation :=
  (policies.map fun p => p.rules.filterMap (blockEntry p ctx)).flatten

/-- All warning entries contributed by a list of active policies, in
evaluation order. -/
def warningsOf (policies : List SecurityPolicy) (ctx : ConnectionContext) :
    List PolicyViolation :=
  (policies.map fun p => p.rules.filterMap (warnEntry p ctx)).flatten

/-! ### Concrete fixtures used by witnesses and counterexamples -/

/-- A connection context negotiated at TLS 1.0. -/
def ctx10 : ConnectionContext :=
  { url := "https://example.com", tlsVersion := some "1.0" }

/-- A context reporting no TLS data at all. -/
def bareCtx : ConnectionContext :=
  { url := "https://example.com" }

/-- A context whose TLS version is the empty string and whose cipher suite
matches no weak cipher. -/
def emptyTlsCtx : ConnectionContext :=
  { url := "https://example.com", tlsVersion := some ""
    cipherSuite := some "AES128-GCM-SHA256" }

/-- A context whose certificate was precomputed as expired. -/
def expiredCtx : ConnectionContext :=
  { url := "https://example.com", certificateExpired := true }

/-- A triggered-on-expiry rule whose action is `prompt`, not `deny`. -/
def promptRule : SecurityRule :=
  { type := RuleType.antiDowngrade
    condition := "certificate_expired"
    action := RuleAction.prompt }

/-- A `strict` policy holding only the `prompt` rule. -/
def promptPolicy : SecurityPolicy :=
  { id := "policy_1", name := "Prompt On Expiry"
    rules := [promptRule], enforcementLevel := EnforcementLevel.strict }

/-- A manager whose only active policy is `promptPolicy` (built by
`createPolicy` + `activatePolicy`). -/
def promptState : PolicyManagerState :=
  { policies := [("policy_1", promptPolicy)], activePolicies := ["policy_1"] }

/-- A `warn`-level policy holding the certificate-expired rule. -/
def warnPolicy : SecurityPolicy :=
  { id := "policy_2", name := "Warn On Expiry"
    rules := [certExpiredRule], enforcementLevel := EnforcementLevel.warn }

/-- A manager whose only active policy is `warnPolicy`. -/
def warnState : PolicyManagerState :=
  { policies := [("policy_2", warnPolicy)], activePolicies := ["policy_2"] }

/-- A certificate whose `validTo` is exactly the evaluation instant used in
the C3 counterexample. -/
def certAtBoundary : Certificate :=
  { id := "cert_1", subject := "example.com", issuer := "Example CA"
    publicKey := "pk", serialNumber := "0A", validFrom := 0, validTo := 1000000
    isPrivate := false, trusted := false }

/-- A router holding only the constructor-registered clearnet handler. -/
def clearnetRouter : UnifiedRouter :=
  { handlers := [clearnetHandler], defaultNetwork := NetworkType.clearnet }

/-- A router with clearnet and i2p but no tor handler. -/
def i2pRouter : UnifiedRouter :=
  { handlers := [clearnetHandler, i2pHandler], defaultNetwork := NetworkType.clearnet }

/-- A router with clearnet and gnunet but no dvpn handler. -/
def gnunetRouter : UnifiedRouter :=
  { handlers := [clearnetHandler, gnunetHandler], defaultNetwork := NetworkType.clearnet }

/-- A router with clearnet and tor but no dvpn or gnunet handler. -/
def torRouter : UnifiedRouter :=
  { handlers := [clearnetHandler, torHandler], defaultNetwork := NetworkType.clearnet }

/-- A tor handler whose configuration disables it. -/
def disabledTorHandler : RouterHandler :=
  { kind := HandlerKind.torH "socks5://127.0.0.1:9050", type := NetworkType.tor
    enabled := false, state := ConnectionState.disconnected }

/-- A router whose tor handler is registered but disabled. -/
def disabledTorRouter : UnifiedRouter :=
  { handlers := [clearnetHandler, disabledTorHandler]
    defaultNetwork := NetworkType.clearnet }

/-- A routing request explicitly preferring tor. -/
def reqTor : RoutingRequest :=
  { url := some "https://example.com", preferredNetwork := some NetworkType.tor }

/-- A disabled tor handler that was driven to `connected` by a direct
`connect()` call. -/
def disabledConnectedTor : RouterHandler :=
  { kind := HandlerKind.torH "socks5://127.0.0.1:9050", type := NetworkType.tor
    enabled := false, state := ConnectionState.connected }

/-- A router holding the disabled-but-connected tor handler. -/
def c9Router : UnifiedRouter :=
  { handlers := [disabledConnectedTor], defaultNetwork := NetworkType.clearnet }

/-! ### Lemmas about the policy evaluation loop -/

lemma isEmpty_append {α : Type} (l1 l2 : List α) :
    (l1 ++ l2).isEmpty = (l1.isEmpty && l2.isEmpty) := by
  cases l1 <;> simp [List.isEmpty]

lemma foldl_evalStep_eq (p : SecurityPolicy) (ctx : ConnectionContext)
    (rules : List SecurityRule) :
    ∀ acc : PolicyEvaluationResult,
    rules.foldl (evalStep p ctx) acc =
      { allowed := acc.allowed && (rules.filterMap (blockEntry p ctx)).isEmpty
        violations := acc.violations ++ rules.filterMap (blockEntry p ctx)
        warnings := acc.warnings ++ rules.filterMap (warnEntry p ctx) } := by
  induction rules with
  | nil => intro acc; cases acc; simp
  | cons rule rules ih =>
    intro acc
    rcases acc with ⟨a, v, w⟩
    show rules.foldl (evalStep p ctx) (evalStep p ctx ⟨a, v, w⟩ rule) = _
    rw [ih]
    rcases her : evaluateRule rule ctx with _ | msg
    · simp [evalStep, blockEntry, warnEntry, her]
    · rcases hb : isBlocking p rule with _ | _
      · simp [evalStep, blockEntry, warnEntry, her, hb]
      · simp [evalStep, blockEntry, warnEntry, her, hb]

lemma foldl_policies_eq (ctx : ConnectionContext) (policies : List SecurityPolicy) :
    ∀ acc : PolicyEvaluationResult,
    policies.foldl (fun acc policy => policy.rules.foldl (evalStep policy ctx) acc) acc =
      { allowed := acc.allowed && (violationsOf policies ctx).isEmpty
        violations := acc.violations ++ violationsOf policies ctx
        warnings := acc.warnings ++ warningsOf policies ctx } := by
  induction policies with
  | nil => intro acc; cases acc; simp [violationsOf, warningsOf]
  | cons p ps ih =>
    intro acc
    show ps.foldl _ (p.rules.foldl (evalStep p ctx) acc) = _
    rw [foldl_evalStep_eq, ih]
    cases acc
    simp [violationsOf, warningsOf, isEmpty_append, Bool.and_assoc]

/-- Closed form of the `evaluateConnection` loop: the verdict is exactly
the emptiness of the collected violations, alongside the collected
warnings. -/
lemma evaluateConnectionPolicies_eq (policies : List SecurityPolicy)
    (ctx : ConnectionContext) :
    evaluateConnectionPolicies policies ctx =
      { allowed := (violationsOf policies ctx).isEmpty
        violations := violationsOf policies ctx
        warnings := warningsOf policies ctx } := by
  unfold evaluateConnectionPolicies
  rw [foldl_policies_eq]
  simp

lemma mem_violationsOf {v : PolicyViolation} {policies : List SecurityPolicy}
    {ctx : ConnectionContext} :
    v ∈ violationsOf policies ctx ↔
      ∃ p ∈ policies, ∃ rule ∈ p.rules, blockEntry p ctx rule = some v := by
  simp [violationsOf, List.mem_flatten, List.mem_filterMap, List.mem_map]

lemma mem_warningsOf {v : PolicyViolation} {policies : List SecurityPolicy}
    {ctx : ConnectionContext} :
    v ∈ warningsOf policies ctx ↔
      ∃ p ∈ policies, ∃ rule ∈ p.rules, warnEntry p ctx rule = some v := by
  simp [warningsOf, List.mem_flatten, List.mem_filterMap, List.mem_map]

lemma getActive_fresh : getActivePolicies freshPolicyManager = [antiDowngradePolicy] := by
  decide

lemma blockEntry_some {p : SecurityPolicy} {ctx : ConnectionContext}
    {rule : SecurityRule} {v : PolicyViolation}
    (h : blockEntry p ctx rule = some v) :
    v.policyId = p.id ∧ v.policyName = p.name ∧ v.rule = rule ∧
    isBlocking p rule = true := by
  unfold blockEntry at h
  rcases her : evaluateRule rule ctx with _ | msg <;> rw [her] at h
  · simp at h
  · rcases hb : isBlocking p rule with _ | _ <;> rw [hb] at h <;> simp at h
    subst h
    simp

/-! ### Lemmas about the PKI trust store and the router -/

/-- Closed form of `verifyCertificate`: validity and errors are purely
temporal, trust is issuer membership or the private marker, and absence of
trust only contributes a warning. -/
lemma verifyCertificate_closed (trustedIssuers : List String) (now : Int)
    (cert : Certificate) :
    verifyCertificate trustedIssuers now cert =
      { valid := decide (cert.validFrom ≤ now) && decide (now ≤ cert.validTo)
        trusted := trustedIssuers.contains cert.issuer || cert.isPrivate
        errors :=
          (if now < cert.validFrom then ["Certificate is not yet valid"] else []) ++
          (if cert.validTo < now then ["Certificate has expired"] else [])
        warnings :=
          if trustedIssuers.contains cert.issuer || cert.isPrivate then []
          else ["Certificate issuer is not in trusted list"] } := by
  unfold verifyCertificate
  by_cases h1 : now < cert.validFrom <;> by_cases h2 : cert.validTo < now <;>
    rcases h3 : trustedIssuers.contains cert.issuer || cert.isPrivate with _ | _ <;>
      simp [h1, h2, h3, gt_iff_lt] <;> omega

lemma connectAll_foldl (hs : List RouterHandler) :
    ∀ acc : List RouterHandler × List (NetworkType × Bool),
    hs.foldl connectAllStep acc =
      (acc.1 ++ hs.map (fun h =>
          if h.enabled then { h with state := ConnectionState.connected } else h),
       acc.2 ++ hs.map (fun h => (h.type, h.enabled))) := by
  induction hs with
  | nil => intro acc; simp
  | cons h hs ih =>
    intro acc
    rcases he : h.enabled with _ | _ <;>
      simp [connectAllStep, handlerConnect, he, ih]

/-! ### Claims -/

/-- C1: for a freshly constructed `PolicyManager` with no additional
policies created or activated, `evaluateConnection` on any connection
context with `tlsVersion = "1.0"` returns `allowed = false` with at least
one violation, the pre-loaded "Anti-Downgrade Protection" policy being
active at enforcement level `strict`. -/
theorem C1_fail_closed_default (ctx : ConnectionContext)
    (h : ctx.tlsVersion = some "1.0") :
    (evaluateConnection freshPolicyManager ctx).allowed = false ∧
    (evaluateConnection freshPolicyManager ctx).violations ≠ [] ∧
    antiDowngradePolicy ∈ getActivePolicies freshPolicyManager ∧
    antiDowngradePolicy.enforcementLevel = EnforcementLevel.strict := by
  have hcmp : compareTlsVersionsLt "1.0" "1.2" = true := by decide
  have hbe : blockEntry antiDowngradePolicy ctx tlsFloorRule =
      some ⟨"default-anti-downgrade", "Anti-Downgrade Protection", tlsFloorRule,
        "TLS version 1.0 is below minimum 1.2"⟩ := by
    simp [blockEntry, evaluateRule, tlsFloorRule, evaluateAntiDowngrade, h, jsTruthyS, hcmp,
      isBlocking, antiDowngradePolicy]
  have hv : ∃ rest, violationsOf (getActivePolicies freshPolicyManager) ctx =
      (⟨"default-anti-downgrade", "Anti-Downgrade Protection", tlsFloorRule,
        "TLS version 1.0 is below minimum 1.2"⟩ : PolicyViolation) :: rest := by
    rw [getActive_fresh]
    refine ⟨?_, ?_⟩
    · exact ([weakCipherRule, certExpiredRule].filterMap (blockEntry antiDowngradePolicy ctx))
    · have hrules : antiDowngradePolicy.rules = [tlsFloorRule, weakCipherRule, certExpiredRule] := rfl
      simp [violationsOf, hrules, List.filterMap_cons, hbe]
  rcases hv with ⟨rest, hv⟩
  unfold evaluateConnection
  rw [evaluateConnectionPolicies_eq]
  refine ⟨?_, ?_, ?_, ?_⟩
  · simp [hv]
  · simp [hv]
  · rw [getActive_fresh]; simp
  · rfl

/-- C1 witness: the guarantee instantiated at a concrete TLS-1.0
context. -/
theorem C1_fail_closed_default_witness :
    (evaluateConnection freshPolicyManager ctx10).allowed = false ∧
    (evaluateConnection freshPolicyManager ctx10).violations ≠ [] ∧
    antiDowngradePolicy ∈ getActivePolicies freshPolicyManager ∧
    antiDowngradePolicy.enforcementLevel = EnforcementLevel.strict :=
  C1_fail_closed_default ctx10 rfl

/-- C2: the claim says "1.10" compares at least "1.2" under numeric
major.minor comparison and must not be flagged; the code parses both sides
with `parseFloat`, so "1.10" evaluates to the decimal fraction 1.1, is
reported below the minimum, and the default policy rejects the
connection. -/
theorem C2_tls_compare_code_bug :
    compareTlsVersionsLt "1.10" "1.2" = true ∧
    evaluateAntiDowngrade tlsFloorRule
        { url := "https://example.com", tlsVersion := some "1.10" } =
      some "TLS version 1.10 is below minimum 1.2" ∧
    (evaluateConnection freshPolicyManager
        { url := "https://example.com", tlsVersion := some "1.10" }).allowed = false := by
  decide

/-- C3 counterexample: a certificate whose `validTo` equals the current
time exactly is NOT treated as expired — `verifyCertificate` returns
`valid = true` with no errors, while the claim demands an exclusive
`validTo` boundary. -/
theorem C3_validTo_boundary_counterexample :
    certAtBoundary.validTo = 1000000 ∧
    (verifyCertificate [] 1000000 certAtBoundary).valid = true ∧
    (verifyCertificate [] 1000000 certAtBoundary).errors = [] := by
  decide

/-- C3 (amended): `verifyCertificate` reports "not yet valid" exactly when
`validFrom` is strictly after `now` (even by one millisecond) and
"expired" exactly when `validTo` is strictly before `now` (the `validTo`
boundary is inclusive: a certificate whose `validTo` equals `now` is still
valid); the two checks are independent, so both errors can appear in one
result. -/
theorem C3_temporal_validity (trustedIssuers : List String) (now : Int)
    (cert : Certificate) :
    (verifyCertificate trustedIssuers now cert).valid =
      (decide (cert.validFrom ≤ now) && decide (now ≤ cert.validTo)) ∧
    (verifyCertificate trustedIssuers now cert).errors =
      (if now < cert.validFrom then ["Certificate is not yet valid"] else []) ++
      (if cert.validTo < now then ["Certificate has expired"] else []) := by
  rw [verifyCertificate_closed]
  exact ⟨rfl, rfl⟩

/-- C4: `trusted = true` iff the issuer is in the trusted-issuer set or the
certificate is marked private; when trust is absent the result carries
exactly the untrusted-issuer warning, and neither `valid` nor `errors`
depends on trust (trust absence never invalidates). -/
theorem C4_trust_computation (trustedIssuers : List String) (now : Int)
    (cert : Certificate) :
    (verifyCertificate trustedIssuers now cert).trusted =
      (trustedIssuers.contains cert.issuer || cert.isPrivate) ∧
    (verifyCertificate trustedIssuers now cert).warnings =
      (if trustedIssuers.contains cert.issuer || cert.isPrivate then []
       else ["Certificate issuer is not in trusted list"]) ∧
    (verifyCertificate trustedIssuers now cert).valid =
      (decide (cert.validFrom ≤ now) && decide (now ≤ cert.validTo)) ∧
    (verifyCertificate trustedIssuers now cert).errors =
      (if now < cert.validFrom then ["Certificate is not yet valid"] else []) ++
      (if cert.validTo < now then ["Certificate has expired"] else []) := by
  rw [verifyCertificate_closed]
  exact ⟨rfl, rfl, rfl, rfl⟩

/-- C5 counterexample: a rule with action `prompt` triggered under a
`strict` policy is recorded as a warning, not a violation, and leaves
`allowed = true` — refuting "regardless of the rule's action field". -/
theorem C5_nondeny_strict_counterexample :
    promptPolicy.enforcementLevel = EnforcementLevel.strict ∧
    evaluateRule promptRule expiredCtx = some "Certificate has expired" ∧
    (evaluateConnection promptState expiredCtx).allowed = true ∧
    (evaluateConnection promptState expiredCtx).violations = [] ∧
    (evaluateConnection promptState expiredCtx).warnings =
      [⟨"policy_1", "Prompt On Expiry", promptRule, "Certificate has expired"⟩] := by
  decide

/-- C5 (amended): a triggered rule of an active `warn`-level policy is
recorded as a warning; a triggered rule with action `deny` under a
non-`warn` policy is recorded as a violation and forces
`allowed = false`; a triggered rule whose action is not `deny` is recorded
as a warning even under `block`/`strict`. -/
theorem C5_aggregation_amended (s : PolicyManagerState) (ctx : ConnectionContext)
    (p : SecurityPolicy) (rule : SecurityRule) (msg : String)
    (hp : p ∈ getActivePolicies s) (hrule : rule ∈ p.rules)
    (htrig : evaluateRule rule ctx = some msg) :
    (p.enforcementLevel = EnforcementLevel.warn →
      (⟨p.id, p.name, rule, msg⟩ : PolicyViolation) ∈ (evaluateConnection s ctx).warnings) ∧
    (rule.action = RuleAction.deny → p.enforcementLevel ≠ EnforcementLevel.warn →
      (⟨p.id, p.name, rule, msg⟩ : PolicyViolation) ∈ (evaluateConnection s ctx).violations ∧
      (evaluateConnection s ctx).allowed = false) ∧
    (rule.action ≠ RuleAction.deny →
      (⟨p.id, p.name, rule, msg⟩ : PolicyViolation) ∈ (evaluateConnection s ctx).warnings) := by
  unfold evaluateConnection
  rw [evaluateConnectionPolicies_eq]
  refine ⟨?_, ?_, ?_⟩
  · intro hw
    have hbl : isBlocking p rule = false := by simp [isBlocking, hw]
    exact mem_warningsOf.mpr ⟨p, hp, rule, hrule, by simp [warnEntry, htrig, hbl]⟩
  · intro hd hw
    have hbl : isBlocking p rule = true := by
      simp [isBlocking, hd]
      exact hw
    have hmem : (⟨p.id, p.name, rule, msg⟩ : PolicyViolation) ∈
        violationsOf (getActivePolicies s) ctx :=
      mem_violationsOf.mpr ⟨p, hp, rule, hrule, by simp [blockEntry, htrig, hbl]⟩
    refine ⟨hmem, ?_⟩
    simp [List.isEmpty_iff]
    exact List.ne_nil_of_mem hmem
  · intro hd
    have hbl : isBlocking p rule = false := by
      simp [isBlocking]
      intro h
      exact absurd h hd
    exact mem_warningsOf.mpr ⟨p, hp, rule, hrule, by simp [warnEntry, htrig, hbl]⟩

/-- C5 witness: the three aggregation cases at concrete managers — a
blocking deny rule, a strict `prompt` rule, and a `warn`-level rule. -/
theorem C5_aggregation_amended_witness :
    ((⟨"default-anti-downgrade", "Anti-Downgrade Protection", tlsFloorRule,
        "TLS version 1.0 is below minimum 1.2"⟩ : PolicyViolation) ∈
        (evaluateConnection freshPolicyManager ctx10).violations ∧
      (evaluateConnection freshPolicyManager ctx10).allowed = false) ∧
    (⟨"policy_1", "Prompt On Expiry", promptRule, "Certificate has expired"⟩ :
        PolicyViolation) ∈ (evaluateConnection promptState expiredCtx).warnings ∧
    (⟨"policy_2", "Warn On Expiry", certExpiredRule, "Certificate has expired"⟩ :
        PolicyViolation) ∈ (evaluateConnection warnState expiredCtx).warnings := by
  refine ⟨?_, ?_, ?_⟩
  · exact (C5_aggregation_amended freshPolicyManager ctx10 antiDowngradePolicy tlsFloorRule
      "TLS version 1.0 is below minimum 1.2" (by decide) (by decide) (by decide)).2.1
      rfl (by decide)
  · exact (C5_aggregation_amended promptState expiredCtx promptPolicy promptRule
      "Certificate has expired" (by decide) (by decide) (by decide)).2.2 (by decide)
  · exact (C5_aggregation_amended warnState expiredCtx warnPolicy certExpiredRule
      "Certificate has expired" (by decide) (by decide) (by decide)).1 rfl

/-- C6: for every manager state and context, `allowed = false` iff the
violations list is non-empty, and every violation entry comes from an
active policy whose enforcement level is not `warn`. -/
theorem C6_result_invariant (s : PolicyManagerState) (ctx : ConnectionContext) :
    ((evaluateConnection s ctx).allowed = false ↔ (evaluateConnection s ctx).violations ≠ []) ∧
    ∀ v ∈ (evaluateConnection s ctx).violations,
      ∃ p ∈ getActivePolicies s, v.policyId = p.id ∧
        p.enforcementLevel ≠ EnforcementLevel.warn := by
  unfold evaluateConnection
  rw [evaluateConnectionPolicies_eq]
  constructor
  · simp [List.isEmpty_iff]
  · intro v hv
    simp only at hv
    rcases mem_violationsOf.mp hv with ⟨p, hp, rule, hrule, hbe⟩
    rcases blockEntry_some hbe with ⟨hid, hname, hrl, hbl⟩
    refine ⟨p, hp, hid, ?_⟩
    intro hw
    rw [isBlocking, hw] at hbl
    simp at hbl

/-- C6 witness: the invariant instantiated at the fresh manager and a
TLS-1.0 context, with the concrete violation entry. -/
theorem C6_result_invariant_witness :
    ((evaluateConnection freshPolicyManager ctx10).allowed = false ↔
      (evaluateConnection freshPolicyManager ctx10).violations ≠ []) ∧
    ∃ p ∈ getActivePolicies freshPolicyManager,
      (⟨"default-anti-downgrade", "Anti-Downgrade Protection", tlsFloorRule,
        "TLS version 1.0 is below minimum 1.2"⟩ : PolicyViolation).policyId = p.id ∧
      p.enforcementLevel ≠ EnforcementLevel.warn := by
  refine ⟨(C6_result_invariant freshPolicyManager ctx10).1, ?_⟩
  exact (C6_result_invariant freshPolicyManager ctx10).2 _ (by decide)

/-- C7: with handlers for clearnet, tor, i2p, dvpn and gnunet registered
and clearnet as default, `selectNetworkForSecurity` returns tor for
maximum, dvpn for elevated and the default for standard; in general
maximum prefers tor then i2p falling back to the default, and elevated
prefers dvpn then gnunet then tor falling back to the default. -/
theorem C7_security_selection :
    (selectNetworkForSecurity fullRouter SecurityLevel.maximum = NetworkType.tor ∧
     selectNetworkForSecurity fullRouter SecurityLevel.elevated = NetworkType.dvpn ∧
     selectNetworkForSecurity fullRouter SecurityLevel.standard = NetworkType.clearnet ∧
     fullRouter.defaultNetwork = NetworkType.clearnet) ∧
    (∀ r : UnifiedRouter,
      (hasHandler r NetworkType.tor = true →
        selectNetworkForSecurity r SecurityLevel.maximum = NetworkType.tor) ∧
      (hasHandler r NetworkType.tor = false → hasHandler r NetworkType.i2p = true →
        selectNetworkForSecurity r SecurityLevel.maximum = NetworkType.i2p) ∧
      (hasHandler r NetworkType.tor = false → hasHandler r NetworkType.i2p = false →
        selectNetworkForSecurity r SecurityLevel.maximum = r.defaultNetwork) ∧
      (hasHandler r NetworkType.dvpn = true →
        selectNetworkForSecurity r SecurityLevel.elevated = NetworkType.dvpn) ∧
      (hasHandler r NetworkType.dvpn = false → hasHandler r NetworkType.gnunet = true →
        selectNetworkForSecurity r SecurityLevel.elevated = NetworkType.gnunet) ∧
      (hasHandler r NetworkType.dvpn = false → hasHandler r NetworkType.gnunet = false →
        hasHandler r NetworkType.tor = true →
        selectNetworkForSecurity r SecurityLevel.elevated = NetworkType.tor) ∧
      (hasHandler r NetworkType.dvpn = false → hasHandler r NetworkType.gnunet = false →
        hasHandler r NetworkType.tor = false →
        selectNetworkForSecurity r SecurityLevel.elevated = r.defaultNetwork) ∧
      selectNetworkForSecurity r SecurityLevel.standard = r.defaultNetwork) := by
  constructor
  · exact ⟨by decide, by decide, by decide, by decide⟩
  · intro r
    refine ⟨?_, ?_, ?_, ?_, ?_, ?_, ?_, ?_⟩ <;>
      · intros
        simp [selectNetworkForSecurity, *]

/-- C7 witness: every branch of the preference table exercised at concrete
routers. -/
theorem C7_security_selection_witness :
    selectNetworkForSecurity fullRouter SecurityLevel.maximum = NetworkType.tor ∧
    selectNetworkForSecurity i2pRouter SecurityLevel.maximum = NetworkType.i2p ∧
    selectNetworkForSecurity clearnetRouter SecurityLevel.maximum = NetworkType.clearnet ∧
    selectNetworkForSecurity fullRouter SecurityLevel.elevated = NetworkType.dvpn ∧
    selectNetworkForSecurity gnunetRouter SecurityLevel.elevated = NetworkType.gnunet ∧
    selectNetworkForSecurity torRouter SecurityLevel.elevated = NetworkType.tor ∧
    selectNetworkForSecurity clearnetRouter SecurityLevel.elevated = NetworkType.clearnet ∧
    selectNetworkForSecurity clearnetRouter SecurityLevel.standard = NetworkType.clearnet := by
  refine ⟨?_, ?_, ?_, ?_, ?_, ?_, ?_, ?_⟩
  · exact (C7_security_selection.2 fullRouter).1 (by decide)
  · exact (C7_security_selection.2 i2pRouter).2.1 (by decide) (by decide)
  · exact (C7_security_selection.2 clearnetRouter).2.2.1 (by decide) (by decide)
  · exact (C7_security_selection.2 fullRouter).2.2.2.1 (by decide)
  · exact (C7_security_selection.2 gnunetRouter).2.2.2.2.1 (by decide) (by decide)
  · exact (C7_security_selection.2 torRouter).2.2.2.2.2.1 (by decide) (by decide) (by decide)
  · exact (C7_security_selection.2 clearnetRouter).2.2.2.2.2.2.1 (by decide) (by decide)
      (by decide)
  · exact (C7_security_selection.2 clearnetRouter).2.2.2.2.2.2.2

/-- C8: `route` always returns a response whose `networkUsed` is the
requested network (no substitution); with no registered handler for that
network it fails with an error naming the network, and with a
registered-but-disabled handler it fails with an error mentioning the
network name. -/
theorem C8_route_total_failures (r : UnifiedRouter) (freshId : String)
    (req : RoutingRequest) :
    ((route r freshId req).1.networkUsed = req.preferredNetwork.getD r.defaultNetwork) ∧
    (getHandler r (req.preferredNetwork.getD r.defaultNetwork) = none →
      (route r freshId req).1.success = false ∧
      (route r freshId req).1.error =
        some ("No handler registered for network type: " ++
          networkName (req.preferredNetwork.getD r.defaultNetwork))) ∧
    (∀ h : RouterHandler,
      getHandler r (req.preferredNetwork.getD r.defaultNetwork) = some h →
      h.enabled = false →
      (route r freshId req).1.success = false ∧
      (route r freshId req).1.error =
        some ("Network " ++ networkName (req.preferredNetwork.getD r.defaultNetwork) ++
          " is disabled")) := by
  rcases hh : getHandler r (req.preferredNetwork.getD r.defaultNetwork) with _ | h
  · refine ⟨?_, fun _ => ⟨?_, ?_⟩, ?_⟩
    · simp [route, hh]
    · simp [route, hh]
    · simp [route, hh]
    · intro h2 hsome hdis
      simp at hsome
  · rcases he : h.enabled with _ | _
    · refine ⟨?_, ?_, ?_⟩
      · simp [route, hh, he]
      · intro hnone; simp at hnone
      · intro h2 hsome hdis
        have hhe : h = h2 := by simpa using hsome
        subst hhe
        constructor
        · simp [route, hh, he]
        · simp [route, hh, he]
    · refine ⟨?_, ?_, ?_⟩
      · simp [route, hh, he]
      · intro hnone; simp at hnone
      · intro h2 hsome hdis
        have hhe : h = h2 := by simpa using hsome
        subst hhe
        rw [he] at hdis
        simp at hdis

/-- C8 witness: a request preferring tor against a router with no tor
handler, and against a router whose tor handler is disabled. -/
theorem C8_route_total_failures_witness :
    (route clearnetRouter "conn_1" reqTor).1.networkUsed = NetworkType.tor ∧
    (route clearnetRouter "conn_1" reqTor).1.success = false ∧
    (route clearnetRouter "conn_1" reqTor).1.error =
      some ("No handler registered for network type: " ++ networkName NetworkType.tor) ∧
    (route disabledTorRouter "conn_2" reqTor).1.networkUsed = NetworkType.tor ∧
    (route disabledTorRouter "conn_2" reqTor).1.success = false ∧
    (route disabledTorRouter "conn_2" reqTor).1.error =
      some ("Network " ++ networkName NetworkType.tor ++ " is disabled") := by
  refine ⟨?_, ?_, ?_, ?_, ?_, ?_⟩
  · exact (C8_route_total_failures clearnetRouter "conn_1" reqTor).1
  · exact ((C8_route_total_failures clearnetRouter "conn_1" reqTor).2.1 (by decide)).1
  · exact ((C8_route_total_failures clearnetRouter "conn_1" reqTor).2.1 (by decide)).2
  · exact (C8_route_total_failures disabledTorRouter "conn_2" reqTor).1
  · exact ((C8_route_total_failures disabledTorRouter "conn_2" reqTor).2.2
      disabledTorHandler (by decide) (by decide)).1
  · exact ((C8_route_total_failures disabledTorRouter "conn_2" reqTor).2.2
      disabledTorHandler (by decide) (by decide)).2

/-- C9 counterexample: `disconnectAll` does not skip disabled handlers — a
disabled handler in `connected` state is driven to `disconnected`. -/
theorem C9_disconnectAll_counterexample :
    disabledConnectedTor.enabled = false ∧
    disabledConnectedTor.state = ConnectionState.connected ∧
    (disconnectAll c9Router).handlers =
      [{ disabledConnectedTor with state := ConnectionState.disconnected }] ∧
    ((disconnectAll c9Router).handlers.map RouterHandler.state) =
      [ConnectionState.disconnected] := by
  decide

/-- C9 (amended): `connectAll` connects every enabled registered handler
(reporting its `connect()` result, `true`) and reports `false` for each
disabled handler without connecting it; `disconnectAll` disconnects every
registered handler, disabled ones included. -/
theorem C9_connectAll_disconnectAll (r : UnifiedRouter) :
    (connectAll r).2 = r.handlers.map (fun h => (h.type, h.enabled)) ∧
    (connectAll r).1.handlers = r.handlers.map (fun h =>
      if h.enabled then { h with state := ConnectionState.connected } else h) ∧
    (disconnectAll r).handlers = r.handlers.map (fun h =>
      { h with state := ConnectionState.disconnected }) := by
  refine ⟨?_, ?_, ?_⟩
  · unfold connectAll
    rw [connectAll_foldl]
    simp
  · unfold connectAll
    rw [connectAll_foldl]
    simp
  · simp [disconnectAll, handlerDisconnect]

/-- C10: a context whose `tlsVersion` is absent or the empty string never
triggers the default TLS-floor rule, and a fresh manager evaluating a
context with no truthy TLS version, no weak-cipher match and
`certificateExpired` unset returns `allowed = true` with no violations or
warnings. -/
theorem C10_fail_open_absent_tls (ctx : ConnectionContext)
    (htls : ctx.tlsVersion = none ∨ ctx.tlsVersion = some "")
    (hciph : ∀ c, ctx.cipherSuite = some c →
      ∀ w ∈ ["RC4", "DES", "3DES", "MD5"], jsIncludes c w = false)
    (hexp : ctx.certificateExpired = false) :
    evaluateAntiDowngrade tlsFloorRule ctx = none ∧
    evaluateConnection freshPolicyManager ctx =
      { allowed := true, violations := [], warnings := [] } := by
  have h1 : evaluateRule tlsFloorRule ctx = none := by
    show evaluateAntiDowngrade tlsFloorRule ctx = none
    rcases htls with h | h <;> simp [evaluateAntiDowngrade, tlsFloorRule, h, jsTruthyS]
  have h2 : evaluateRule weakCipherRule ctx = none := by
    show evaluateAntiDowngrade weakCipherRule ctx = none
    rcases hc : ctx.cipherSuite with _ | c
    · simp [evaluateAntiDowngrade, weakCipherRule, hc, jsTruthyS]
    · have hany : (["RC4", "DES", "3DES", "MD5"].any fun w => jsIncludes c w) = false := by
        simp only [List.any_eq_false]
        intro w hw
        simp [hciph c hc w hw]
      simp [evaluateAntiDowngrade, weakCipherRule, hc, jsTruthyS, hany]
  have h3 : evaluateRule certExpiredRule ctx = none := by
    show evaluateAntiDowngrade certExpiredRule ctx = none
    simp [evaluateAntiDowngrade, certExpiredRule, hexp]
  refine ⟨h1, ?_⟩
  have hrules : antiDowngradePolicy.rules = [tlsFloorRule, weakCipherRule, certExpiredRule] := rfl
  unfold evaluateConnection
  rw [evaluateConnectionPolicies_eq, getActive_fresh]
  simp [violationsOf, warningsOf, hrules, List.filterMap_cons, blockEntry, warnEntry, h1, h2, h3]

/-- C10 witness: a context with no TLS data at all, and one with an empty
TLS version and a strong cipher suite. -/
theorem C10_fail_open_absent_tls_witness :
    (evaluateAntiDowngrade tlsFloorRule bareCtx = none ∧
     evaluateConnection freshPolicyManager bareCtx =
       { allowed := true, violations := [], warnings := [] }) ∧
    (evaluateAntiDowngrade tlsFloorRule emptyTlsCtx = none ∧
     evaluateConnection freshPolicyManager emptyTlsCtx =
       { allowed := true, violations := [], warnings := [] }) := by
  constructor
  · exact C10_fail_open_absent_tls bareCtx (Or.inl rfl)
      (fun c hc => by simp [bareCtx] at hc) rfl
  · refine C10_fail_open_absent_tls emptyTlsCtx (Or.inr rfl) ?_ rfl
    intro c hc w hw
    have hcs : emptyTlsCtx.cipherSuite = some "AES128-GCM-SHA256" := rfl
    rw [hcs] at hc
    have hce : c = "AES128-GCM-SHA256" := (Option.some.inj hc).symm
    subst hce
    fin_cases hw <;> decide

end HexaGate
